import Mathlib

/-
Verification of the submission admission and validation pipeline of the
jpgrader course-automation repository.

The definitions below are a shallow embedding of `grader/engine.py`
(class `Grader`), together with the data model of `utils/data_models.py`
and the lookup queries of `grader/database.py`.  Python's file system,
the nbgrader grading backend and the relational directory store are
modelled as explicit state (`FS`, `GraderState`) and oracles (`Env`);
raised Python exceptions are modelled as `Except.error`.  Every
operation with an externally visible effect additionally records an
`Event` in a trace, so that ordering and short-circuiting properties of
`Grader.grade_submission` are stated directly on the trace.
-/

set_option maxHeartbeats 1000000
set_option maxRecDepth 2048

namespace JpGrader

/-! ## Basic string and path helpers -/

/-- Python `str.lower()` restricted to the character-wise case mapping
(the only use sites are email addresses and lesson names). -/
def pyLower (s : String) : String := ⟨s.data.map Char.toLower⟩

/-- Embedding of `os.path.join(a, b)` for a relative second component. -/
def pathJoin (a b : String) : String := a ++ "/" ++ b

/-- True when the path `q` lies strictly inside the directory `p`. -/
def underDir (p q : String) : Bool := (p.data ++ ['/']).isPrefixOf q.data

/-- Decidable equality of outcomes, used to evaluate concrete runs. -/
instance {ε α : Type} [DecidableEq ε] [DecidableEq α] :
    DecidableEq (Except ε α) := fun a b =>
  match a, b with
  | Except.error e1, Except.error e2 =>
      if h : e1 = e2 then isTrue (by rw [h])
      else isFalse (by intro hc; injection hc with h2; exact h h2)
  | Except.ok x, Except.ok y =>
      if h : x = y then isTrue (by rw [h])
      else isFalse (by intro hc; injection hc with h2; exact h h2)
  | Except.error _, Except.ok _ => isFalse (by intro hc; cases hc)
  | Except.ok _, Except.error _ => isFalse (by intro hc; cases hc)

/-! ## Data model (`utils/data_models.py`) -/

/-- Status of the grading process, from `utils/data_models.py`
(`GradeStatus`).  The shipped `data_models.py` revision predates
`grader/engine.py`; the constructor `ERROR_GRADER_FAILED`, which
`engine.py` and `exchanger/feedback.py` reference, is modelled from the
spec (section 4.3 state machine). -/
inductive GradeStatus where
  | SUCCESS
  | ERROR_USERNAME_IS_ABSENT
  | ERROR_NO_CORRECT_FILES
  | ERROR_LESSON_IS_ABSENT
  | ERROR_NOTEBOOK_CORRUPTED
  | SKIPPED
  | ERROR_GRADER_FAILED
deriving DecidableEq, Repr

/-- Task description, from `utils/data_models.py` (`Task`).  Scores are
Python floats; they are modelled as rationals. -/
structure Task where
  name : String
  max_score : Rat := 0
  score : Rat := 0
  test_cell : Option String := none
deriving DecidableEq, Repr

/-- Submission parameters, from `utils/data_models.py` (`Submission`) as
used by `grader/engine.py`: `timestamp`, `email`, `lesson_name`,
`file_path` (staged attachment directory) and `submission_id`.  Datetime
values are modelled as integers (comparison and serialisation are the
only operations used). -/
structure Submission where
  timestamp : Int
  email : String
  lesson_name : String
  file_path : String
  submission_id : String
deriving DecidableEq, Repr

/-- Grade result, from `utils/data_models.py` (`GradeResult`) as
populated by `grader/engine.py`. -/
structure GradeResult where
  submission_id : String
  status : GradeStatus
  timestamp : Int
  email : String
  student_id : Option String := none
  first_name : Option String := none
  last_name : Option String := none
  lesson_name : Option String := none
  task_grades : Option (List Task) := none
deriving DecidableEq, Repr

/-- Row of the `student` table as returned by
`DatabaseHandler.get_user_info` (`grader/database.py`). -/
structure UserRecord where
  id : String
  email : String
  first_name : String
  last_name : String
deriving DecidableEq, Repr

/-- Row of the `assignment` table as returned by
`DatabaseHandler.get_lesson_info` (`grader/database.py`). -/
structure LessonRecord where
  name : String
deriving DecidableEq, Repr

/-! ## Notebook files and the file system -/

/-- Cell type of a notebook cell (`cell["cell_type"]`). -/
inductive CellType where
  | markdown
  | code
  | other
deriving DecidableEq, Repr

/-- The `nbgrader` entry of a cell's metadata: its optional `grade_id`
key and its `grade` flag. -/
structure NbMeta where
  grade_id : Option String
  grade : Bool
deriving DecidableEq, Repr

/-- A notebook cell: its type, the optional `nbgrader` metadata entry,
and its `source` lines. -/
structure Cell where
  cell_type : CellType
  nbgrader : Option NbMeta
  source : List String
deriving DecidableEq, Repr

/-- Result of `json.load` on a notebook file: a JSON document with a
`cells` array, a JSON document without a `cells` key, or content that
raises `JSONDecodeError`/`UnicodeDecodeError`. -/
inductive NotebookJson where
  | cellsArr (cells : List Cell)
  | noCellsKey
  | malformed
deriving DecidableEq, Repr

/-- Content of a file in the modelled file system.  `tsFile t` is a
`timestamp.txt` written with `DATE_FORMAT` and read back by
`dateutil.parser.parse` (a faithful round trip at second precision);
`nbFile` is an `.ipynb` file as seen by `json.load`; `rawText` is any
other text, which is not valid notebook JSON and not a parseable
timestamp. -/
inductive FileData where
  | tsFile (t : Int)
  | nbFile (nb : NotebookJson)
  | rawText (s : String)
deriving DecidableEq, Repr

/-- File system state: the set of existing directories and a map from
file paths to their contents. -/
structure FS where
  dirs : List String
  files : List (String × FileData)
deriving DecidableEq, Repr

/-- Content of the file at exactly path `p`, if any. -/
def FS.lookupFile (fs : FS) (p : String) : Option FileData :=
  (fs.files.find? (fun f => f.1 == p)).map (fun f => f.2)

/-- Embedding of `os.path.exists`. -/
def FS.existsPath (fs : FS) (p : String) : Bool :=
  fs.dirs.any (fun d => d == p) || fs.files.any (fun f => f.1 == p)

/-- Embedding of `shutil.rmtree p`: afterwards nothing exists at `p` or
strictly below it. -/
def FS.rmtree (fs : FS) (p : String) : FS :=
  { dirs := fs.dirs.filter (fun d => !(d == p || underDir p d)),
    files := fs.files.filter (fun f => !(f.1 == p || underDir p f.1)) }

/-- Helper of `copytree`: the path `p` rebased from the tree rooted at
`src` to the tree rooted at `dst`. -/
def rebase (src dst p : String) : Option String :=
  if underDir src p then
    some ⟨dst.data ++ ['/'] ++ p.data.drop (src.data.length + 1)⟩
  else none

/-- Embedding of `shutil.copytree src dst` (with `dst` not existing, as
guaranteed at the call site): the directory `dst` is created and every
entry below `src` is duplicated below `dst`. -/
def FS.copytree (fs : FS) (src dst : String) : FS :=
  { dirs := dst :: fs.dirs.filterMap (rebase src dst) ++ fs.dirs,
    files :=
      fs.files.filterMap (fun f => (rebase src dst f.1).map (fun q => (q, f.2)))
        ++ fs.files }

/-- Embedding of `open(p, "w")` followed by a full write. -/
def FS.writeFile (fs : FS) (p : String) (d : FileData) : FS :=
  { fs with files := (p, d) :: fs.files.filter (fun f => !(f.1 == p)) }

/-! ## Directory store queries (`grader/database.py`) -/

/-- Embedding of `DatabaseHandler.get_user_info`: the first row of the
`student` table whose email matches case-insensitively
(`func.lower(student.email) == email.lower()`).  An empty dict is
`none`. -/
def get_user_info (users : List UserRecord) (email : String) : Option UserRecord :=
  users.find? (fun u => pyLower u.email == pyLower email)

/-- Embedding of `DatabaseHandler.get_lesson_info`: the first row of the
`assignment` table whose name matches case-insensitively. -/
def get_lesson_info (lessons : List LessonRecord) (name : String) : Option LessonRecord :=
  lessons.find? (fun l => pyLower l.name == pyLower name)

/-! ## Environment and state of the orchestrator -/

/-- External collaborators of `Grader`, read-only during one call:
the directory store tables, the nbgrader gradebook queries
(`find_assignment`, `find_notebook`), and the grading backend oracles
(`autograde`/`generate_feedback` outcomes, per-cell scores of the
autograded submission, and the generated feedback file contents). -/
structure Env where
  users : List UserRecord
  lessons : List LessonRecord
  notebooksOf : String → List String
  sourceCellsOf : String → String → List String
  autogradeSuccess : String → String → Bool
  feedbackSuccess : String → String → Bool
  gradesOf : String → String → String → Option (Rat × Rat)
  feedbackFile : String → String → String → String

/-- Row appended to the `submission_logs` table by
`DatabaseHandler.log_submission`, with the fields passed at the call
site in `grade_submission`. -/
structure LedgerRecord where
  user_id : String
  lesson_name : String
  task_grades : List Task
  timestamp : Int
  feedback : String
  notebook : FileData
deriving DecidableEq, Repr

/-- Observable operations performed while grading one submission, in
execution order.  Each constructor marks the execution of the
correspondingly named operation in `grade_submission` and its
helpers. -/
inductive Event where
  | checkUser (email : String)
  | checkLesson (lesson : String)
  | checkFiles (lesson : String)
  | checkFresh (submittedPath : String)
  | checkValid (notebook : String)
  | promote (src dst : String)
  | autogradeCall (lesson user : String)
  | removeSubmission (lesson user : String)
  | gradesQuery (lesson user : String)
  | feedbackCall (lesson user : String)
  | ledgerWrite (user lesson : String)
deriving DecidableEq, Repr

/-- Mutable state threaded through `grade_submission`: the file system,
the set of submission records in the grading backend's gradebook, the
durable ledger, and the event trace. -/
structure GraderState where
  fs : FS
  backendSubs : List (String × String)
  ledger : List LedgerRecord
  trace : List Event
deriving DecidableEq, Repr

/-! ## Helpers of `Grader` (`grader/engine.py`) -/

/-- Embedding of `Grader._get_notebook_name`: the first notebook of the
lesson in the gradebook (`names[0] if names else None`). -/
def getNotebookName (env : Env) (lesson : String) : Option String :=
  (env.notebooksOf lesson).head?

/-- Embedding of `Grader._is_submission_newer`.  A missing
`timestamp.txt` means the first submission for the pair; otherwise the
stored timestamp is parsed and compared strictly.  Unparseable content
raises in `dateutil.parser.parse`, modelled as `Except.error`. -/
def isSubmissionNewer (fs : FS) (submittedPath : String) (timestamp : Int) :
    Except String Bool :=
  match fs.lookupFile (pathJoin submittedPath "timestamp.txt") with
  | none => Except.ok true
  | some (FileData.tsFile t) => Except.ok (timestamp > t)
  | some _ => Except.error "ParserError: could not parse the stored timestamp"

/-- The grade ids collected by `Grader._is_notebook_valid` from the
parsed cells: for every cell whose metadata contains an `nbgrader`
entry, the value of `metadata.nbgrader.get("grade_id")` (which is
`None` when the key is absent). -/
def collectGradeIds (cells : List Cell) : List (Option String) :=
  cells.filterMap (fun c => c.nbgrader.map (fun m => m.grade_id))

/-- Embedding of `Counter(a) == Counter(b)`: the two lists contain every
value the same number of times. -/
def counterEq [DecidableEq α] (a b : List α) : Bool :=
  (a ++ b).all (fun x => a.count x == b.count x)

/-- Embedding of `Grader._is_notebook_valid`.  Parse failures
(`JSONDecodeError`, `UnicodeDecodeError`) degrade to `false`; a missing
file raises `FileNotFoundError` (the caller has already checked
existence).  The valid cell names come from the gradebook's source
cells for the notebook. -/
def isNotebookValid (env : Env) (fs : FS) (path lesson notebook : String) :
    Except String Bool :=
  match fs.lookupFile (pathJoin path (notebook ++ ".ipynb")) with
  | none => Except.error "FileNotFoundError"
  | some (FileData.nbFile (NotebookJson.cellsArr cells)) =>
      Except.ok (counterEq (collectGradeIds cells)
        ((env.sourceCellsOf notebook lesson).map some))
  | some (FileData.nbFile NotebookJson.noCellsKey) =>
      Except.ok (counterEq ([] : List (Option String))
        ((env.sourceCellsOf notebook lesson).map some))
  | some _ => Except.ok false

/-- Embedding of `Grader._move_checked_files`: clear any prior promoted
copy, copy the staged tree to the submitted area, write the timestamp
marker, and remove the staged tree. -/
def moveCheckedFiles (fs : FS) (downloadedPath submittedPath : String)
    (timestamp : Int) : FS :=
  let fs1 := if fs.existsPath submittedPath then fs.rmtree submittedPath else fs
  let fs2 := fs1.copytree downloadedPath submittedPath
  let fs3 := fs2.writeFile (pathJoin submittedPath "timestamp.txt")
    (FileData.tsFile timestamp)
  fs3.rmtree downloadedPath

/-- Embedding of `Grader._autograde`.  The nbgrader `autograde` call
records a (possibly partial) submission in the gradebook; on a
non-success outcome the engine removes that record and the promoted
submitted directory and reports failure. -/
def runAutograde (env : Env) (st : GraderState) (lesson user : String) :
    Bool × GraderState :=
  let st1 : GraderState :=
    { st with
      trace := st.trace ++ [Event.autogradeCall lesson user],
      backendSubs := (lesson, user) :: st.backendSubs.filter (fun r => !(r == (lesson, user))) }
  if env.autogradeSuccess lesson user then (true, st1)
  else
    let st2 : GraderState :=
      { st1 with
        backendSubs := st1.backendSubs.filter (fun r => !(r == (lesson, user))),
        trace := st1.trace ++ [Event.removeSubmission lesson user] }
    let path := pathJoin (pathJoin "submitted" user) lesson
    let st3 : GraderState :=
      if st2.fs.existsPath path then { st2 with fs := st2.fs.rmtree path } else st2
    (false, st3)

/-- Embedding of `Grader._create_nbgrader_feedback`: a non-success
outcome of `generate_feedback` raises `RuntimeError`; on success the
generated feedback file is read back. -/
def createNbgraderFeedback (env : Env) (lesson notebook user : String) :
    Except String String :=
  if env.feedbackSuccess lesson user then
    Except.ok (env.feedbackFile lesson notebook user)
  else
    Except.error "RuntimeError: generating nbgrader feedback failed"

/-! ## Task list of a lesson (`Grader._get_lesson_tasks`) -/

/-- The literal head of `TASK_NAME_PATTERN` from `settings.py`:
the pattern is `^#### TODO:\s+(?P<name>.+)$`. -/
def todoHead : List Char := "#### TODO:".data

/-- Drop one newline at the very end, where `$` may match before it. -/
def stripTrailingNl (cs : List Char) : List Char :=
  if cs.getLast? == some '\n' then cs.dropLast else cs

/-- Whether a candidate remainder is matched by `(.+)$`: after removing
one trailing newline it is non-empty and newline-free. -/
def validTodoName (cs : List Char) : Bool :=
  let core := stripTrailingNl cs
  !core.isEmpty && core.all (fun c => !(c == '\n'))

/-- Greedy search for the split of `\s+(.+)$`: try consuming `k`
whitespace characters, largest first, down to one. -/
def todoSearch (r : List Char) : Nat → Option (List Char)
  | 0 => none
  | k + 1 =>
      let cand := r.drop (k + 1)
      if validTodoName cand then some (stripTrailingNl cand)
      else todoSearch r k

/-- Embedding of `re.match(TASK_NAME_PATTERN, cell_source_line)` with
the captured `name` group: the line starts with the literal head,
followed by at least one whitespace character, followed by a non-empty
newline-free name extending to the end of the line. -/
def matchTodo (line : String) : Option String :=
  if todoHead.isPrefixOf line.data then
    let r := line.data.drop todoHead.length
    let ws := (r.takeWhile (fun c => c.isWhitespace)).length
    (todoSearch r ws).map (fun cs => String.mk cs)
  else none

/-- One iteration of the cell loop of `Grader._get_lesson_tasks`.  The
accumulator carries the tasks collected so far, the current `task`
variable, and how many copies of the current task have been appended:
in Python the appended element is the same object as `task`, so a later
`task.test_cell = ...` on the same object also rewrites the already
appended copies, which the counter replays.  `cell["source"][0]` on an
empty source list and `nb_data["grade_id"]` on metadata without that
key raise, modelled as `Except.error`. -/
def lessonTasksStep (acc : List Task × Option Task × Nat) (cell : Cell) :
    Except String (List Task × Option Task × Nat) :=
  match cell.nbgrader with
  | none => Except.ok acc
  | some meta =>
    match cell.cell_type with
    | CellType.markdown =>
        match cell.source.head? with
        | none => Except.error "IndexError: empty cell source"
        | some line =>
            match matchTodo line with
            | some name => Except.ok (acc.1, some { name := name }, 0)
            | none => Except.ok acc
    | CellType.code =>
        if meta.grade then
          match acc.2.1 with
          | none => Except.ok acc
          | some t =>
              match meta.grade_id with
              | none => Except.error "KeyError: grade_id"
              | some gid =>
                  let t' : Task := { t with test_cell := some gid }
                  Except.ok
                    (acc.1.take (acc.1.length - acc.2.2)
                       ++ List.replicate (acc.2.2 + 1) t',
                     some t', acc.2.2 + 1)
        else Except.ok acc
    | CellType.other => Except.ok acc

/-- Embedding of `Grader._get_lesson_tasks`: parse the instructor's
original notebook under `source/{lesson}/{notebook}.ipynb` and collect
the declared tasks.  Here `notebook["cells"]` raises `KeyError` when
the key is absent and `json.load` raises on malformed content. -/
def getLessonTasks (fs : FS) (lesson notebook : String) : Except String (List Task) :=
  match fs.lookupFile (pathJoin (pathJoin "source" lesson) (notebook ++ ".ipynb")) with
  | some (FileData.nbFile (NotebookJson.cellsArr cells)) =>
      (cells.foldlM lessonTasksStep
          (([], none, 0) : List Task × Option Task × Nat)).map
        (fun acc => acc.1)
  | some (FileData.nbFile NotebookJson.noCellsKey) => Except.error "KeyError: cells"
  | some _ => Except.error "JSONDecodeError"
  | none => Except.error "FileNotFoundError"

/-- The score-joining loop of `Grader._get_submission_grades`:
`grades[task.test_cell]` raises `KeyError` when no backend score exists
for a declared task; otherwise the task's score and max score are
filled in. -/
def gradeTasks (scores : String → Option (Rat × Rat)) :
    List Task → Except String (List Task)
  | [] => Except.ok []
  | t :: ts =>
      match t.test_cell with
      | none => Except.error "KeyError: no backend score for the task"
      | some c =>
          match scores c with
          | none => Except.error "KeyError: no backend score for the task"
          | some sm =>
              (gradeTasks scores ts).map
                (fun rest => { t with score := sm.1, max_score := sm.2 } :: rest)

/-- Embedding of `Grader._get_submission_grades`: the per-cell scores of
the autograded submission are read from the gradebook, the task list is
parsed from the source notebook, and each declared task is joined with
its backend score. -/
def getSubmissionGrades (env : Env) (fs : FS) (lesson notebook user : String) :
    Except String (List Task) :=
  match getLessonTasks fs lesson notebook with
  | Except.error e => Except.error e
  | Except.ok tasks => gradeTasks (env.gradesOf lesson user) tasks

/-! ## The orchestrator (`Grader.grade_submission`) -/

/-- The grading phase of `Grader.grade_submission` (the code following
the admission checks): autograde, then on success the score join, the
nbgrader feedback, and the durable ledger write; on a non-success
autograde outcome, status `ERROR_GRADER_FAILED` with the rollback
already performed inside `_autograde`. -/
def gradingPhase (env : Env) (stP : GraderState) (sub : Submission)
    (gr2 : GradeResult) (lesson nb user submittedPath : String) :
    Except String (GradeResult × GraderState) :=
  match runAutograde env stP lesson user with
  | (false, stA) =>
      Except.ok ({ gr2 with status := GradeStatus.ERROR_GRADER_FAILED }, stA)
  | (true, stA) =>
    let stG : GraderState :=
      { stA with trace := stA.trace ++ [Event.gradesQuery lesson user] }
    match getSubmissionGrades env stG.fs lesson nb user with
    | Except.error e => Except.error e
    | Except.ok grades =>
      let gr3 : GradeResult := { gr2 with task_grades := some grades }
      let stB : GraderState :=
        { stG with trace := stG.trace ++ [Event.feedbackCall lesson user] }
      match createNbgraderFeedback env lesson nb user with
      | Except.error e => Except.error e
      | Except.ok feedback =>
        match stB.fs.lookupFile (pathJoin submittedPath (nb ++ ".ipynb")) with
        | none => Except.error "FileNotFoundError"
        | some nbData =>
          let entry : LedgerRecord :=
            { user_id := user, lesson_name := lesson,
              task_grades := grades, timestamp := sub.timestamp,
              feedback := feedback, notebook := nbData }
          Except.ok (gr3,
            { stB with
              ledger := stB.ledger ++ [entry],
              trace := stB.trace ++ [Event.ledgerWrite user lesson] })

/-- Embedding of `Grader.grade_submission`: the sequential admission
checks (user, lesson, file presence, freshness, structural validation),
each short-circuiting with a terminal status and removal of the staged
directory; then the grading phase (`gradingPhase`).  Uncaught Python
exceptions are `Except.error`. -/
def grade_submission (env : Env) (st0 : GraderState) (sub : Submission) :
    Except String (GradeResult × GraderState) :=
  let gr0 : GradeResult :=
    { submission_id := sub.submission_id, status := GradeStatus.SUCCESS,
      timestamp := sub.timestamp, email := sub.email }
  let stU : GraderState := { st0 with trace := st0.trace ++ [Event.checkUser sub.email] }
  match get_user_info env.users sub.email with
  | none =>
      Except.ok ({ gr0 with status := GradeStatus.ERROR_USERNAME_IS_ABSENT },
        { stU with fs := stU.fs.rmtree sub.file_path })
  | some u =>
    let gr1 : GradeResult :=
      { gr0 with
        email := u.email
        student_id := some u.id
        first_name := some u.first_name
        last_name := some u.last_name }
    let stL : GraderState := { stU with trace := stU.trace ++ [Event.checkLesson sub.lesson_name] }
    match get_lesson_info env.lessons sub.lesson_name with
    | none =>
        Except.ok ({ gr1 with status := GradeStatus.ERROR_LESSON_IS_ABSENT },
          { stL with fs := stL.fs.rmtree sub.file_path })
    | some l =>
      let gr2 : GradeResult := { gr1 with lesson_name := some l.name }
      let stF : GraderState := { stL with trace := stL.trace ++ [Event.checkFiles l.name] }
      match getNotebookName env l.name with
      | none =>
          Except.ok ({ gr2 with status := GradeStatus.ERROR_NO_CORRECT_FILES },
            { stF with fs := stF.fs.rmtree sub.file_path })
      | some nb =>
        if stF.fs.existsPath (pathJoin sub.file_path (nb ++ ".ipynb")) then
          let submittedPath := pathJoin (pathJoin "submitted" u.id) l.name
          let stN : GraderState :=
            { stF with trace := stF.trace ++ [Event.checkFresh submittedPath] }
          match isSubmissionNewer stN.fs submittedPath sub.timestamp with
          | Except.error e => Except.error e
          | Except.ok fresh =>
            if fresh then
              let stV : GraderState :=
                { stN with trace := stN.trace ++ [Event.checkValid nb] }
              match isNotebookValid env stV.fs sub.file_path l.name nb with
              | Except.error e => Except.error e
              | Except.ok valid =>
                if valid then
                  let stP : GraderState :=
                    { stV with
                      fs := moveCheckedFiles stV.fs sub.file_path submittedPath sub.timestamp,
                      trace := stV.trace ++ [Event.promote sub.file_path submittedPath] }
                  gradingPhase env stP sub gr2 l.name nb u.id submittedPath
                else
                  Except.ok ({ gr2 with status := GradeStatus.ERROR_NOTEBOOK_CORRUPTED },
                    { stV with fs := stV.fs.rmtree sub.file_path })
            else
              Except.ok ({ gr2 with status := GradeStatus.SKIPPED },
                { stN with fs := stN.fs.rmtree sub.file_path })
        else
          Except.ok ({ gr2 with status := GradeStatus.ERROR_NO_CORRECT_FILES },
            { stF with fs := stF.fs.rmtree sub.file_path })

/-! ## Supporting lemmas -/

/-- After `rmtree p`, nothing exists at `p`. -/
theorem existsPath_rmtree_self (fs : FS) (p : String) :
    (fs.rmtree p).existsPath p = false := by
  have hdir : (fs.dirs.filter (fun d => !(d == p || underDir p d))).any
      (fun d => d == p) = false := by
    rw [List.any_eq_false]
    intro d hd
    have hmem := List.of_mem_filter hd
    simp only [Bool.not_eq_true', Bool.or_eq_false_iff] at hmem
    simp [hmem.1]
  have hfile : (fs.files.filter (fun f => !(f.1 == p || underDir p f.1))).any
      (fun f => f.1 == p) = false := by
    rw [List.any_eq_false]
    intro f hf
    have hmem := List.of_mem_filter hf
    simp only [Bool.not_eq_true', Bool.or_eq_false_iff] at hmem
    simp [hmem.1]
  simp only [FS.existsPath, FS.rmtree, hdir, hfile, Bool.or_self]

/-- A path with a file at it exists. -/
theorem existsPath_of_lookupFile (fs : FS) (p : String) (d : FileData)
    (h : fs.lookupFile p = some d) : fs.existsPath p = true := by
  simp only [FS.lookupFile, Option.map_eq_some'] at h
  obtain ⟨f, hf, _⟩ := h
  have hmem := List.find?_some hf
  have hfm := List.mem_of_find?_eq_some hf
  simp only [FS.existsPath, Bool.or_eq_true, List.any_eq_true]
  exact Or.inr ⟨f, hfm, hmem⟩

/-- The key removed by the cleanup filter of `_autograde` is absent
afterwards. -/
theorem not_mem_filter_self {α : Type _} [BEq α] [LawfulBEq α] (l : List α) (a : α) :
    a ∉ l.filter (fun r => !(r == a)) := by
  intro h
  have := List.of_mem_filter h
  simp at this

/-- `Counter` equality is permutation of the underlying lists. -/
theorem counterEq_iff_perm {α : Type _} [DecidableEq α] (a b : List α) :
    counterEq a b = true ↔ a.Perm b := by
  rw [List.perm_iff_count]
  unfold counterEq
  rw [List.all_eq_true]
  constructor
  · intro h x
    by_cases hx : x ∈ a ++ b
    · exact beq_iff_eq.mp (h x hx)
    · rw [List.mem_append] at hx
      push_neg at hx
      rw [List.count_eq_zero_of_not_mem hx.1, List.count_eq_zero_of_not_mem hx.2]
  · intro h x _
    exact beq_iff_eq.mpr (h x)

/-- If some declared task has no backend score, the score join raises. -/
theorem gradeTasks_error_of_missing (scores : String → Option (Rat × Rat))
    (ts : List Task) (t : Task) (ht : t ∈ ts)
    (hm : t.test_cell.bind scores = none) :
    ∃ e, gradeTasks scores ts = Except.error e := by
  induction ts with
  | nil => cases ht
  | cons hd tl ih =>
    rcases List.mem_cons.mp ht with rfl | htl
    · match hc : t.test_cell with
      | none =>
          exact ⟨"KeyError: no backend score for the task", by simp [gradeTasks, hc]⟩
      | some c =>
        rw [hc] at hm
        have hm' : scores c = none := by simpa using hm
        exact ⟨"KeyError: no backend score for the task",
          by simp [gradeTasks, hc, hm']⟩
    · match hc : hd.test_cell with
      | none =>
          exact ⟨"KeyError: no backend score for the task", by simp [gradeTasks, hc]⟩
      | some c =>
        match hs : scores c with
        | none =>
            exact ⟨"KeyError: no backend score for the task",
              by simp [gradeTasks, hc, hs]⟩
        | some sm =>
          obtain ⟨e, he⟩ := ih htl
          exact ⟨e, by simp [gradeTasks, hc, hs, he, Except.map]⟩

/-! ## Outcome projections and inversion lemmas -/

/-- The returned status of an orchestrator outcome, when no exception
was raised. -/
def statusOf (x : Except String (GradeResult × GraderState)) : Option GradeStatus :=
  x.toOption.map (fun p => p.1.status)

/-- The returned grade result of an orchestrator outcome. -/
def resultOf (x : Except String (GradeResult × GraderState)) : Option GradeResult :=
  x.toOption.map (fun p => p.1)

/-- The final state of an orchestrator outcome. -/
def stateOf (x : Except String (GradeResult × GraderState)) : Option GraderState :=
  x.toOption.map (fun p => p.2)

/-- The final event trace of an orchestrator outcome. -/
def traceOf (x : Except String (GradeResult × GraderState)) : Option (List Event) :=
  x.toOption.map (fun p => p.2.trace)

/-- The final gradebook submission records of an orchestrator outcome. -/
def backendSubsOf (x : Except String (GradeResult × GraderState)) :
    Option (List (String × String)) :=
  x.toOption.map (fun p => p.2.backendSubs)

/-- The final ledger of an orchestrator outcome. -/
def ledgerOf (x : Except String (GradeResult × GraderState)) : Option (List LedgerRecord) :=
  x.toOption.map (fun p => p.2.ledger)

/-- On a non-success autograde outcome, `_autograde` reports failure,
leaves no gradebook record for the pair, removes the promoted
directory, and leaves the ledger untouched. -/
theorem runAutograde_failure (env : Env) (st : GraderState) (lesson user : String)
    (hA : env.autogradeSuccess lesson user = false) :
    (runAutograde env st lesson user).1 = false ∧
    ((runAutograde env st lesson user).2).fs.existsPath
        (pathJoin (pathJoin "submitted" user) lesson) = false ∧
    (lesson, user) ∉ ((runAutograde env st lesson user).2).backendSubs ∧
    ((runAutograde env st lesson user).2).ledger = st.ledger ∧
    ((runAutograde env st lesson user).2).trace =
      st.trace ++ [Event.autogradeCall lesson user, Event.removeSubmission lesson user] := by
  cases hc : st.fs.existsPath (pathJoin (pathJoin "submitted" user) lesson) with
  | true =>
      refine ⟨?_, ?_, ?_, ?_, ?_⟩
      · simp [runAutograde, hA]
      · simp only [runAutograde, hA, Bool.false_eq_true, if_false, hc, if_true]
        exact existsPath_rmtree_self _ _
      · simp only [runAutograde, hA, Bool.false_eq_true, if_false, hc, if_true]
        exact not_mem_filter_self _ _
      · simp [runAutograde, hA, hc]
      · simp [runAutograde, hA, hc]
  | false =>
      refine ⟨?_, ?_, ?_, ?_, ?_⟩
      · simp [runAutograde, hA]
      · simp [runAutograde, hA, hc]
      · simp only [runAutograde, hA, Bool.false_eq_true, if_false, hc, if_true]
        exact not_mem_filter_self _ _
      · simp [runAutograde, hA, hc]
      · simp [runAutograde, hA, hc]

/-- Equation form of `runAutograde_failure`, for rewriting under a
match. -/
theorem runAutograde_eq_failure (env : Env) (st : GraderState) (lesson user : String)
    (b : Bool) (st' : GraderState)
    (heq : runAutograde env st lesson user = (b, st'))
    (hA : env.autogradeSuccess lesson user = false) :
    b = false ∧
    st'.fs.existsPath (pathJoin (pathJoin "submitted" user) lesson) = false ∧
    (lesson, user) ∉ st'.backendSubs ∧
    st'.ledger = st.ledger ∧
    st'.trace = st.trace ++ [Event.autogradeCall lesson user,
      Event.removeSubmission lesson user] := by
  have hk := runAutograde_failure env st lesson user hA
  rw [heq] at hk
  exact ⟨hk.1, hk.2.1, hk.2.2.1, hk.2.2.2.1, hk.2.2.2.2⟩

/-- On a success autograde outcome, `_autograde` only records the
gradebook submission and the call event. -/
theorem runAutograde_success (env : Env) (st : GraderState) (lesson user : String)
    (hA : env.autogradeSuccess lesson user = true) :
    runAutograde env st lesson user = (true,
      { st with
        trace := st.trace ++ [Event.autogradeCall lesson user],
        backendSubs := (lesson, user) ::
          st.backendSubs.filter (fun r => !(r == (lesson, user))) }) := by
  simp [runAutograde, hA]

/-- Inversion of the grading phase: it either reports
`ERROR_GRADER_FAILED` with the `_autograde` rollback state, or returns
the result with the joined task grades, an untouched file system, one
appended ledger record and the grading events. -/
theorem gradingPhase_ok_cases (env : Env) (stP : GraderState) (sub : Submission)
    (gr2 : GradeResult) (lesson nb user sp : String)
    (r : GradeResult) (st' : GraderState)
    (h : gradingPhase env stP sub gr2 lesson nb user sp = Except.ok (r, st')) :
    (r = { gr2 with status := GradeStatus.ERROR_GRADER_FAILED } ∧
      (runAutograde env stP lesson user).1 = false ∧
      st' = (runAutograde env stP lesson user).2) ∨
    (∃ grades, r = { gr2 with task_grades := some grades } ∧
      env.autogradeSuccess lesson user = true ∧
      st'.fs = stP.fs ∧
      (∃ entry, st'.ledger = stP.ledger ++ [entry]) ∧
      st'.trace = stP.trace ++ [Event.autogradeCall lesson user,
        Event.gradesQuery lesson user, Event.feedbackCall lesson user,
        Event.ledgerWrite user lesson]) := by
  unfold gradingPhase at h
  rcases hA : runAutograde env stP lesson user with ⟨b, stA⟩
  rw [hA] at h
  cases b with
  | false =>
      simp only at h
      simp only [Except.ok.injEq, Prod.mk.injEq] at h
      exact Or.inl ⟨h.1.symm, rfl, h.2.symm⟩
  | true =>
      simp only at h
      have hval : env.autogradeSuccess lesson user = true := by
        cases hv : env.autogradeSuccess lesson user
        · exfalso
          have hf := runAutograde_failure env stP lesson user hv
          rw [hA] at hf
          simp at hf
        · rfl
      have hstA : stA = { stP with
          trace := stP.trace ++ [Event.autogradeCall lesson user],
          backendSubs := (lesson, user) ::
            stP.backendSubs.filter (fun r => !(r == (lesson, user))) } := by
        have hs := runAutograde_success env stP lesson user hval
        rw [hA] at hs
        simp only [Prod.mk.injEq, true_and] at hs
        exact hs
      rcases hG : getSubmissionGrades env stA.fs lesson nb user with e | grades <;>
        rw [hG] at h
      · exact absurd h (by simp)
      · rcases hFb : createNbgraderFeedback env lesson nb user with e | fb <;>
          rw [hFb] at h
        · exact absurd h (by simp)
        · rcases hLk : stA.fs.lookupFile (pathJoin sp (nb ++ ".ipynb")) with _ | nbData <;>
            rw [hLk] at h
          · exact absurd h (by simp)
          · simp only [Except.ok.injEq, Prod.mk.injEq] at h
            right
            refine ⟨grades, h.1.symm, hval, ?_, ?_, ?_⟩
            · rw [← h.2]
              simp [hstA]
            · rw [← h.2]
              refine ⟨{
                user_id := user
                lesson_name := lesson
                task_grades := grades
                timestamp := sub.timestamp
                feedback := fb
                notebook := nbData }, ?_⟩
              simp [hstA]
            · rw [← h.2]
              simp [hstA]

/-- `_autograde` never touches the durable ledger. -/
theorem runAutograde_ledger (env : Env) (st : GraderState) (lesson user : String) :
    ((runAutograde env st lesson user).2).ledger = st.ledger := by
  unfold runAutograde
  cases hv : env.autogradeSuccess lesson user
  · simp only [Bool.false_eq_true, if_false]
    split
    · rfl
    · rfl
  · simp

/-- Master inversion of `grade_submission`: every normally returned
result is one of the five admission rejections (with the staged
directory removed), a grader failure (with the ledger untouched), or a
success (with the joined task grades present). -/
theorem grade_submission_ok_cases (env : Env) (st : GraderState) (sub : Submission)
    (r : GradeResult) (st' : GraderState)
    (h : grade_submission env st sub = Except.ok (r, st')) :
    (r.status = GradeStatus.ERROR_USERNAME_IS_ABSENT ∧ r.task_grades = none ∧
      st'.fs = st.fs.rmtree sub.file_path ∧
      get_user_info env.users sub.email = none) ∨
    (r.status = GradeStatus.ERROR_LESSON_IS_ABSENT ∧ r.task_grades = none ∧
      st'.fs = st.fs.rmtree sub.file_path ∧
      get_lesson_info env.lessons sub.lesson_name = none) ∨
    (r.status = GradeStatus.ERROR_NO_CORRECT_FILES ∧ r.task_grades = none ∧
      st'.fs = st.fs.rmtree sub.file_path ∧
      (∃ l', get_lesson_info env.lessons sub.lesson_name = some l' ∧
        (getNotebookName env l'.name = none ∨
          ∃ nb, getNotebookName env l'.name = some nb ∧
            st.fs.existsPath (pathJoin sub.file_path (nb ++ ".ipynb")) = false))) ∨
    (r.status = GradeStatus.SKIPPED ∧ r.task_grades = none ∧
      st'.fs = st.fs.rmtree sub.file_path) ∨
    (r.status = GradeStatus.ERROR_NOTEBOOK_CORRUPTED ∧ r.task_grades = none ∧
      st'.fs = st.fs.rmtree sub.file_path) ∨
    (r.status = GradeStatus.ERROR_GRADER_FAILED ∧ r.task_grades = none ∧
      st'.ledger = st.ledger) ∨
    (r.status = GradeStatus.SUCCESS ∧ ∃ g, r.task_grades = some g) := by
  unfold grade_submission at h
  rcases hU : get_user_info env.users sub.email with _ | u <;> simp only [hU] at h
  · simp only [Except.ok.injEq, Prod.mk.injEq] at h
    obtain ⟨h1, h2⟩ := h
    subst h1
    subst h2
    exact Or.inl ⟨rfl, rfl, rfl, rfl⟩
  · rcases hL : get_lesson_info env.lessons sub.lesson_name with _ | l <;>
      simp only [hL] at h
    · simp only [Except.ok.injEq, Prod.mk.injEq] at h
      obtain ⟨h1, h2⟩ := h
      subst h1
      subst h2
      exact Or.inr (Or.inl ⟨rfl, rfl, rfl, rfl⟩)
    · rcases hN : getNotebookName env l.name with _ | nb <;> simp only [hN] at h
      · simp only [Except.ok.injEq, Prod.mk.injEq] at h
        obtain ⟨h1, h2⟩ := h
        subst h1
        subst h2
        exact Or.inr (Or.inr (Or.inl ⟨rfl, rfl, rfl, l, rfl, Or.inl hN⟩))
      · cases hE : st.fs.existsPath (pathJoin sub.file_path (nb ++ ".ipynb")) <;>
          simp only [hE, Bool.false_eq_true, if_false, if_true] at h
        · simp only [Except.ok.injEq, Prod.mk.injEq] at h
          obtain ⟨h1, h2⟩ := h
          subst h1
          subst h2
          exact Or.inr (Or.inr (Or.inl ⟨rfl, rfl, rfl, l, rfl, Or.inr ⟨nb, hN, hE⟩⟩))
        · rcases hFr : isSubmissionNewer st.fs
              (pathJoin (pathJoin "submitted" u.id) l.name) sub.timestamp
            with e | fresh <;> simp only [hFr] at h
          · exact absurd h (by simp)
          · cases fresh <;>
              simp only [Bool.false_eq_true, if_false, if_true] at h
            · simp only [Except.ok.injEq, Prod.mk.injEq] at h
              obtain ⟨h1, h2⟩ := h
              subst h1
              subst h2
              exact Or.inr (Or.inr (Or.inr (Or.inl ⟨rfl, rfl, rfl⟩)))
            · rcases hV : isNotebookValid env st.fs sub.file_path l.name nb
                with e | valid <;> simp only [hV] at h
              · exact absurd h (by simp)
              · cases valid <;>
                  simp only [Bool.false_eq_true, if_false, if_true] at h
                · simp only [Except.ok.injEq, Prod.mk.injEq] at h
                  obtain ⟨h1, h2⟩ := h
                  subst h1
                  subst h2
                  exact Or.inr (Or.inr (Or.inr (Or.inr (Or.inl ⟨rfl, rfl, rfl⟩))))
                · have hcases := gradingPhase_ok_cases _ _ _ _ _ _ _ _ _ _ h
                  rcases hcases with ⟨hr, hb, hst⟩ | ⟨grades, hr, hA, hfs, hled, htr⟩
                  · subst hr
                    refine Or.inr (Or.inr (Or.inr (Or.inr (Or.inr (Or.inl
                      ⟨rfl, rfl, ?_⟩)))))
                    rw [hst, runAutograde_ledger]
                  · subst hr
                    exact Or.inr (Or.inr (Or.inr (Or.inr (Or.inr (Or.inr
                      ⟨rfl, grades, rfl⟩)))))

/-! ## Claim theorems -/

/-- C1: grade_submission runs the admission checks in the fixed order
user resolution, lesson resolution, file presence, freshness,
structural validation; the first failing check immediately terminates
processing with, respectively, ERROR_USERNAME_IS_ABSENT,
ERROR_LESSON_IS_ABSENT, ERROR_NO_CORRECT_FILES, SKIPPED,
ERROR_NOTEBOOK_CORRUPTED, and no later check or grading-backend
operation runs after a failing check (the trace extends by exactly the
executed checks, and the gradebook records and the ledger are
untouched). -/
theorem admission_checks_order_and_statuses (env : Env) (st : GraderState)
    (sub : Submission) :
    (get_user_info env.users sub.email = none →
      statusOf (grade_submission env st sub) = some GradeStatus.ERROR_USERNAME_IS_ABSENT ∧
      traceOf (grade_submission env st sub) = some (st.trace ++ [Event.checkUser sub.email]) ∧
      backendSubsOf (grade_submission env st sub) = some st.backendSubs ∧
      ledgerOf (grade_submission env st sub) = some st.ledger) ∧
    (∀ u, get_user_info env.users sub.email = some u →
      get_lesson_info env.lessons sub.lesson_name = none →
      statusOf (grade_submission env st sub) = some GradeStatus.ERROR_LESSON_IS_ABSENT ∧
      traceOf (grade_submission env st sub) = some (st.trace ++
        [Event.checkUser sub.email, Event.checkLesson sub.lesson_name]) ∧
      backendSubsOf (grade_submission env st sub) = some st.backendSubs ∧
      ledgerOf (grade_submission env st sub) = some st.ledger) ∧
    (∀ u l, get_user_info env.users sub.email = some u →
      get_lesson_info env.lessons sub.lesson_name = some l →
      getNotebookName env l.name = none →
      statusOf (grade_submission env st sub) = some GradeStatus.ERROR_NO_CORRECT_FILES ∧
      traceOf (grade_submission env st sub) = some (st.trace ++
        [Event.checkUser sub.email, Event.checkLesson sub.lesson_name,
         Event.checkFiles l.name]) ∧
      backendSubsOf (grade_submission env st sub) = some st.backendSubs ∧
      ledgerOf (grade_submission env st sub) = some st.ledger) ∧
    (∀ u l nb, get_user_info env.users sub.email = some u →
      get_lesson_info env.lessons sub.lesson_name = some l →
      getNotebookName env l.name = some nb →
      st.fs.existsPath (pathJoin sub.file_path (nb ++ ".ipynb")) = false →
      statusOf (grade_submission env st sub) = some GradeStatus.ERROR_NO_CORRECT_FILES ∧
      traceOf (grade_submission env st sub) = some (st.trace ++
        [Event.checkUser sub.email, Event.checkLesson sub.lesson_name,
         Event.checkFiles l.name]) ∧
      backendSubsOf (grade_submission env st sub) = some st.backendSubs ∧
      ledgerOf (grade_submission env st sub) = some st.ledger) ∧
    (∀ u l nb, get_user_info env.users sub.email = some u →
      get_lesson_info env.lessons sub.lesson_name = some l →
      getNotebookName env l.name = some nb →
      st.fs.existsPath (pathJoin sub.file_path (nb ++ ".ipynb")) = true →
      isSubmissionNewer st.fs (pathJoin (pathJoin "submitted" u.id) l.name)
        sub.timestamp = Except.ok false →
      statusOf (grade_submission env st sub) = some GradeStatus.SKIPPED ∧
      traceOf (grade_submission env st sub) = some (st.trace ++
        [Event.checkUser sub.email, Event.checkLesson sub.lesson_name,
         Event.checkFiles l.name,
         Event.checkFresh (pathJoin (pathJoin "submitted" u.id) l.name)]) ∧
      backendSubsOf (grade_submission env st sub) = some st.backendSubs ∧
      ledgerOf (grade_submission env st sub) = some st.ledger) ∧
    (∀ u l nb, get_user_info env.users sub.email = some u →
      get_lesson_info env.lessons sub.lesson_name = some l →
      getNotebookName env l.name = some nb →
      st.fs.existsPath (pathJoin sub.file_path (nb ++ ".ipynb")) = true →
      isSubmissionNewer st.fs (pathJoin (pathJoin "submitted" u.id) l.name)
        sub.timestamp = Except.ok true →
      isNotebookValid env st.fs sub.file_path l.name nb = Except.ok false →
      statusOf (grade_submission env st sub) = some GradeStatus.ERROR_NOTEBOOK_CORRUPTED ∧
      traceOf (grade_submission env st sub) = some (st.trace ++
        [Event.checkUser sub.email, Event.checkLesson sub.lesson_name,
         Event.checkFiles l.name,
         Event.checkFresh (pathJoin (pathJoin "submitted" u.id) l.name),
         Event.checkValid nb]) ∧
      backendSubsOf (grade_submission env st sub) = some st.backendSubs ∧
      ledgerOf (grade_submission env st sub) = some st.ledger) := by
  refine ⟨?_, ?_, ?_, ?_, ?_, ?_⟩
  · intro hU
    refine ⟨?_, ?_, ?_, ?_⟩ <;>
      simp only [grade_submission, hU, statusOf, traceOf, backendSubsOf, ledgerOf,
        Except.toOption, Option.map, List.append_assoc, List.cons_append, List.nil_append]
  · intro u hU hL
    refine ⟨?_, ?_, ?_, ?_⟩ <;>
      simp only [grade_submission, hU, hL, statusOf, traceOf, backendSubsOf, ledgerOf,
        Except.toOption, Option.map, List.append_assoc, List.cons_append, List.nil_append]
  · intro u l hU hL hN
    refine ⟨?_, ?_, ?_, ?_⟩ <;>
      simp only [grade_submission, hU, hL, hN, statusOf, traceOf, backendSubsOf, ledgerOf,
        Except.toOption, Option.map, List.append_assoc, List.cons_append, List.nil_append]
  · intro u l nb hU hL hN hE
    refine ⟨?_, ?_, ?_, ?_⟩ <;>
      simp only [grade_submission, hU, hL, hN, hE, statusOf, traceOf, backendSubsOf,
        ledgerOf, Except.toOption, Option.map, List.append_assoc, List.cons_append,
        List.nil_append, Bool.false_eq_true, if_false]
  · intro u l nb hU hL hN hE hF
    refine ⟨?_, ?_, ?_, ?_⟩ <;>
      simp only [grade_submission, hU, hL, hN, hE, hF, statusOf, traceOf, backendSubsOf,
        ledgerOf, Except.toOption, Option.map, List.append_assoc, List.cons_append,
        List.nil_append, if_true, Bool.false_eq_true, if_false]
  · intro u l nb hU hL hN hE hF hV
    refine ⟨?_, ?_, ?_, ?_⟩ <;>
      simp only [grade_submission, hU, hL, hN, hE, hF, hV, statusOf, traceOf,
        backendSubsOf, ledgerOf, Except.toOption, Option.map, List.append_assoc,
        List.cons_append, List.nil_append, if_true, Bool.false_eq_true, if_false]

/-- C2: the freshness predicate holds iff no prior timestamp exists or
the new timestamp is strictly greater; and a submission that passed
user, lesson and file resolution whose timestamp is not strictly
greater than the recorded one is SKIPPED. -/
theorem freshness_predicate_semantics :
    (∀ (fs : FS) (sp : String) (ts : Int),
      isSubmissionNewer fs sp ts = Except.ok true ↔
        (fs.lookupFile (pathJoin sp "timestamp.txt") = none ∨
          ∃ t, fs.lookupFile (pathJoin sp "timestamp.txt") = some (FileData.tsFile t) ∧
            ts > t)) ∧
    (∀ (env : Env) (st : GraderState) (sub : Submission) (u : UserRecord)
        (l : LessonRecord) (nb : String) (t : Int),
      get_user_info env.users sub.email = some u →
      get_lesson_info env.lessons sub.lesson_name = some l →
      getNotebookName env l.name = some nb →
      st.fs.existsPath (pathJoin sub.file_path (nb ++ ".ipynb")) = true →
      st.fs.lookupFile (pathJoin (pathJoin (pathJoin "submitted" u.id) l.name)
        "timestamp.txt") = some (FileData.tsFile t) →
      ¬(sub.timestamp > t) →
      statusOf (grade_submission env st sub) = some GradeStatus.SKIPPED) := by
  constructor
  · intro fs sp ts
    unfold isSubmissionNewer
    rcases hLk : fs.lookupFile (pathJoin sp "timestamp.txt") with _ | d
    · simp
    · cases d with
      | tsFile t =>
          simp only [Except.ok.injEq, decide_eq_true_eq]
          constructor
          · intro h
            exact Or.inr ⟨t, rfl, h⟩
          · rintro (h | ⟨t', ht', hgt⟩)
            · cases h
            · injection ht' with h1
              injection h1 with h2
              rw [h2]
              exact hgt
      | nbFile nbj => simp
      | rawText str => simp
  · intro env st sub u l nb t hU hL hN hE hLk hnot
    have hF : isSubmissionNewer st.fs (pathJoin (pathJoin "submitted" u.id) l.name)
        sub.timestamp = Except.ok false := by
      unfold isSubmissionNewer
      rw [hLk]
      simp [hnot]
    simp only [grade_submission, hU, hL, hN, hE, hF, statusOf, Except.toOption,
      Option.map, if_true, Bool.false_eq_true, if_false]

/-- C3: for a parseable notebook the validator returns True iff the
multiset of collected grading-marker identifiers equals the multiset of
expected identifiers; permutations validate, while removing or
duplicating one expected identifier invalidates. -/
theorem notebook_validator_multiset_semantics (env : Env) (fs : FS)
    (path lesson nb : String) (cells : List Cell)
    (hLk : fs.lookupFile (pathJoin path (nb ++ ".ipynb")) =
      some (FileData.nbFile (NotebookJson.cellsArr cells))) :
    ((isNotebookValid env fs path lesson nb = Except.ok true) ↔
      Multiset.ofList (collectGradeIds cells) =
        Multiset.ofList ((env.sourceCellsOf nb lesson).map some)) ∧
    ((collectGradeIds cells).Perm ((env.sourceCellsOf nb lesson).map some) →
      isNotebookValid env fs path lesson nb = Except.ok true) ∧
    (∀ x, x ∈ (env.sourceCellsOf nb lesson).map some →
      Multiset.ofList (collectGradeIds cells) =
        (Multiset.ofList ((env.sourceCellsOf nb lesson).map some)).erase x →
      isNotebookValid env fs path lesson nb = Except.ok false) ∧
    (∀ x, Multiset.ofList (collectGradeIds cells) =
        x ::ₘ Multiset.ofList ((env.sourceCellsOf nb lesson).map some) →
      isNotebookValid env fs path lesson nb = Except.ok false) := by
  have hval : isNotebookValid env fs path lesson nb =
      Except.ok (counterEq (collectGradeIds cells)
        ((env.sourceCellsOf nb lesson).map some)) := by
    simp [isNotebookValid, hLk]
  have hiff : (isNotebookValid env fs path lesson nb = Except.ok true) ↔
      (collectGradeIds cells).Perm ((env.sourceCellsOf nb lesson).map some) := by
    rw [hval]
    simp only [Except.ok.injEq]
    exact counterEq_iff_perm _ _
  have hms : (isNotebookValid env fs path lesson nb = Except.ok true) ↔
      Multiset.ofList (collectGradeIds cells) =
        Multiset.ofList ((env.sourceCellsOf nb lesson).map some) := by
    rw [hiff]
    exact Iff.symm Multiset.coe_eq_coe
  have hfalse : ∀ (hne : ¬ Multiset.ofList (collectGradeIds cells) =
      Multiset.ofList ((env.sourceCellsOf nb lesson).map some)),
      isNotebookValid env fs path lesson nb = Except.ok false := by
    intro hne
    rw [hval]
    congr 1
    cases hb : counterEq (collectGradeIds cells)
        ((env.sourceCellsOf nb lesson).map some)
    · rfl
    · exact absurd (Multiset.coe_eq_coe.mpr ((counterEq_iff_perm _ _).mp hb)) hne
  refine ⟨hms, ?_, ?_, ?_⟩
  · intro hperm
    exact hiff.mpr hperm
  · intro x hx heq
    refine hfalse (fun hms2 => ?_)
    have hcard := congrArg Multiset.card (hms2.symm.trans heq)
    rw [Multiset.card_erase_of_mem (Multiset.mem_coe.mpr hx),
      Nat.pred_eq_sub_one] at hcard
    have hpos : 0 < Multiset.card (Multiset.ofList
        ((env.sourceCellsOf nb lesson).map some)) :=
      Multiset.card_pos_iff_exists_mem.mpr ⟨x, Multiset.mem_coe.mpr hx⟩
    omega
  · intro x heq
    refine hfalse (fun hms2 => ?_)
    have hcard := congrArg Multiset.card (hms2.symm.trans heq)
    rw [Multiset.card_cons] at hcard
    omega

/-- C4: when the autograde operation reports a non-success outcome for
an admitted submission, the result status is ERROR_GRADER_FAILED, the
partial gradebook record for the pair is removed, the promoted
submitted-files directory no longer exists, and no ledger record is
written. -/
theorem grader_failure_rollback (env : Env) (st : GraderState) (sub : Submission)
    (u : UserRecord) (l : LessonRecord) (nb : String)
    (hU : get_user_info env.users sub.email = some u)
    (hL : get_lesson_info env.lessons sub.lesson_name = some l)
    (hN : getNotebookName env l.name = some nb)
    (hE : st.fs.existsPath (pathJoin sub.file_path (nb ++ ".ipynb")) = true)
    (hF : isSubmissionNewer st.fs (pathJoin (pathJoin "submitted" u.id) l.name)
      sub.timestamp = Except.ok true)
    (hV : isNotebookValid env st.fs sub.file_path l.name nb = Except.ok true)
    (hA : env.autogradeSuccess l.name u.id = false) :
    statusOf (grade_submission env st sub) = some GradeStatus.ERROR_GRADER_FAILED ∧
    (stateOf (grade_submission env st sub)).map
      (fun s => s.fs.existsPath (pathJoin (pathJoin "submitted" u.id) l.name)) =
      some false ∧
    (stateOf (grade_submission env st sub)).map
      (fun s => decide ((l.name, u.id) ∈ s.backendSubs)) = some false ∧
    ledgerOf (grade_submission env st sub) = some st.ledger := by
  simp only [grade_submission, hU, hL, hN, hE, hF, hV, if_true, gradingPhase]
  split
  case _ stA heq =>
    have hk := runAutograde_eq_failure env _ l.name u.id _ _ heq hA
    refine ⟨?_, ?_, ?_, ?_⟩
    · simp [statusOf, Except.toOption]
    · simp [stateOf, Except.toOption, hk.2.1]
    · simp [stateOf, Except.toOption, hk.2.2.1]
    · simp [ledgerOf, Except.toOption, hk.2.2.2.1]
  case _ stA heq =>
    have hk := runAutograde_eq_failure env _ l.name u.id _ _ heq hA
    exact absurd hk.1 (by simp)

/-- C6: every rejected submission (the five admission rejection
statuses) has its staged file directory removed before
grade_submission returns. -/
theorem rejection_removes_staged_directory (env : Env) (st : GraderState)
    (sub : Submission) (r : GradeResult) (st' : GraderState)
    (h : grade_submission env st sub = Except.ok (r, st'))
    (hrej : r.status = GradeStatus.ERROR_USERNAME_IS_ABSENT ∨
      r.status = GradeStatus.ERROR_LESSON_IS_ABSENT ∨
      r.status = GradeStatus.ERROR_NO_CORRECT_FILES ∨
      r.status = GradeStatus.SKIPPED ∨
      r.status = GradeStatus.ERROR_NOTEBOOK_CORRUPTED) :
    st'.fs.existsPath sub.file_path = false := by
  rcases grade_submission_ok_cases env st sub r st' h with
    ⟨_, _, hfs, _⟩ | ⟨_, _, hfs, _⟩ | ⟨_, _, hfs, _⟩ | ⟨_, _, hfs⟩ | ⟨_, _, hfs⟩ |
    ⟨hs, _, _⟩ | ⟨hs, _⟩
  · rw [hfs]
    exact existsPath_rmtree_self _ _
  · rw [hfs]
    exact existsPath_rmtree_self _ _
  · rw [hfs]
    exact existsPath_rmtree_self _ _
  · rw [hfs]
    exact existsPath_rmtree_self _ _
  · rw [hfs]
    exact existsPath_rmtree_self _ _
  · simp [hs] at hrej
  · simp [hs] at hrej

/-- C7: a notebook file whose contents fail to parse makes the
validator return False (no error propagates), the submission status
becomes ERROR_NOTEBOOK_CORRUPTED, and the grading backend autograde
operation is never invoked for that submission. -/
theorem corrupted_notebook_short_circuits (env : Env) (st : GraderState)
    (sub : Submission) (u : UserRecord) (l : LessonRecord) (nb : String)
    (hU : get_user_info env.users sub.email = some u)
    (hL : get_lesson_info env.lessons sub.lesson_name = some l)
    (hN : getNotebookName env l.name = some nb)
    (hLk : st.fs.lookupFile (pathJoin sub.file_path (nb ++ ".ipynb")) =
      some (FileData.nbFile NotebookJson.malformed))
    (hF : isSubmissionNewer st.fs (pathJoin (pathJoin "submitted" u.id) l.name)
      sub.timestamp = Except.ok true) :
    isNotebookValid env st.fs sub.file_path l.name nb = Except.ok false ∧
    statusOf (grade_submission env st sub) = some GradeStatus.ERROR_NOTEBOOK_CORRUPTED ∧
    traceOf (grade_submission env st sub) = some (st.trace ++
      [Event.checkUser sub.email, Event.checkLesson sub.lesson_name,
       Event.checkFiles l.name,
       Event.checkFresh (pathJoin (pathJoin "submitted" u.id) l.name),
       Event.checkValid nb]) ∧
    (∀ tr lx ux, traceOf (grade_submission env st sub) = some tr →
      Event.autogradeCall lx ux ∈ tr → Event.autogradeCall lx ux ∈ st.trace) := by
  have hE : st.fs.existsPath (pathJoin sub.file_path (nb ++ ".ipynb")) = true :=
    existsPath_of_lookupFile _ _ _ hLk
  have hV : isNotebookValid env st.fs sub.file_path l.name nb = Except.ok false := by
    simp [isNotebookValid, hLk]
  have htr : traceOf (grade_submission env st sub) = some (st.trace ++
      [Event.checkUser sub.email, Event.checkLesson sub.lesson_name,
       Event.checkFiles l.name,
       Event.checkFresh (pathJoin (pathJoin "submitted" u.id) l.name),
       Event.checkValid nb]) := by
    simp only [grade_submission, hU, hL, hN, hE, hF, hV, traceOf, Except.toOption,
      Option.map, List.append_assoc, List.cons_append, List.nil_append, if_true,
      Bool.false_eq_true, if_false]
  refine ⟨hV, ?_, htr, ?_⟩
  · simp only [grade_submission, hU, hL, hN, hE, hF, hV, statusOf, Except.toOption,
      Option.map, if_true, Bool.false_eq_true, if_false]
  · intro tr lx ux htr2 hmem
    rw [htr] at htr2
    injection htr2 with htr3
    rw [← htr3] at hmem
    rcases List.mem_append.mp hmem with hin | hin
    · exact hin
    · simp at hin

/-- C8: every returned GradeResult has task_grades present exactly when
its status is SUCCESS. -/
theorem task_grades_iff_success (env : Env) (st : GraderState) (sub : Submission)
    (r : GradeResult) (st' : GraderState)
    (h : grade_submission env st sub = Except.ok (r, st')) :
    (∃ g, r.task_grades = some g) ↔ r.status = GradeStatus.SUCCESS := by
  rcases grade_submission_ok_cases env st sub r st' h with
    ⟨hs, hg, _, _⟩ | ⟨hs, hg, _, _⟩ | ⟨hs, hg, _, _⟩ | ⟨hs, hg, _⟩ | ⟨hs, hg, _⟩ |
    ⟨hs, hg, _⟩ | ⟨hs, hg⟩
  · rw [hs, hg]
    simp
  · rw [hs, hg]
    simp
  · rw [hs, hg]
    simp
  · rw [hs, hg]
    simp
  · rw [hs, hg]
    simp
  · rw [hs, hg]
    simp
  · rw [hs]
    simp [hg]

/-- C10: the orchestrator silently selects the first notebook of the
lesson; only zero notebooks or a missing selected notebook file yields
ERROR_NO_CORRECT_FILES, and a lesson with more than one notebook whose
first notebook file is present is never rejected with that status. -/
theorem first_notebook_selected (env : Env) (st : GraderState) (sub : Submission)
    (u : UserRecord) (l : LessonRecord) :
    (∀ lesson, getNotebookName env lesson = (env.notebooksOf lesson).head?) ∧
    (get_user_info env.users sub.email = some u →
      get_lesson_info env.lessons sub.lesson_name = some l →
      env.notebooksOf l.name = [] →
      statusOf (grade_submission env st sub) = some GradeStatus.ERROR_NO_CORRECT_FILES) ∧
    (∀ nb rest, get_user_info env.users sub.email = some u →
      get_lesson_info env.lessons sub.lesson_name = some l →
      env.notebooksOf l.name = nb :: rest →
      st.fs.existsPath (pathJoin sub.file_path (nb ++ ".ipynb")) = false →
      statusOf (grade_submission env st sub) = some GradeStatus.ERROR_NO_CORRECT_FILES) ∧
    (∀ nb1 nb2 rest, get_user_info env.users sub.email = some u →
      get_lesson_info env.lessons sub.lesson_name = some l →
      env.notebooksOf l.name = nb1 :: nb2 :: rest →
      st.fs.existsPath (pathJoin sub.file_path (nb1 ++ ".ipynb")) = true →
      ∀ r st', grade_submission env st sub = Except.ok (r, st') →
        r.status ≠ GradeStatus.ERROR_NO_CORRECT_FILES) := by
  refine ⟨fun lesson => rfl, ?_, ?_, ?_⟩
  · intro hU hL hNb
    have hN : getNotebookName env l.name = none := by
      simp [getNotebookName, hNb]
    simp only [grade_submission, hU, hL, hN, statusOf, Except.toOption, Option.map]
  · intro nb rest hU hL hNb hE
    have hN : getNotebookName env l.name = some nb := by
      simp [getNotebookName, hNb]
    simp only [grade_submission, hU, hL, hN, hE, statusOf, Except.toOption, Option.map,
      Bool.false_eq_true, if_false]
  · intro nb1 nb2 rest hU hL hNb hE r st' h hstat
    have hN : getNotebookName env l.name = some nb1 := by
      simp [getNotebookName, hNb]
    rcases grade_submission_ok_cases env st sub r st' h with
      ⟨hs, _, _, _⟩ | ⟨hs, _, _, _⟩ | ⟨hs, _, _, hcause⟩ | ⟨hs, _, _⟩ | ⟨hs, _, _⟩ |
      ⟨hs, _, _⟩ | ⟨hs, _⟩
    · rw [hstat] at hs
      cases hs
    · rw [hstat] at hs
      cases hs
    · obtain ⟨l2, hl2, hc⟩ := hcause
      rw [hL] at hl2
      injection hl2 with hl2e
      subst hl2e
      rcases hc with hnone | ⟨nbx, hnbx, hex⟩
      · rw [hN] at hnone
        cases hnone
      · rw [hN] at hnbx
        injection hnbx with hnbe
        subst hnbe
        rw [hE] at hex
        cases hex
    · rw [hstat] at hs
      cases hs
    · rw [hstat] at hs
      cases hs
    · rw [hstat] at hs
      cases hs
    · rw [hstat] at hs
      cases hs

/-! ## Further helper lemmas for the promotion and fatal-error claims -/

/-- The reported autograde outcome is exactly the backend oracle. -/
theorem runAutograde_fst (env : Env) (st : GraderState) (lesson user : String) :
    (runAutograde env st lesson user).1 = env.autogradeSuccess lesson user := by
  cases hv : env.autogradeSuccess lesson user <;> simp [runAutograde, hv]

/-- `_autograde` appends the backend call event right after the
caller's trace, whatever the outcome. -/
theorem runAutograde_trace (env : Env) (st : GraderState) (lesson user : String) :
    ∃ post, ((runAutograde env st lesson user).2).trace =
      st.trace ++ Event.autogradeCall lesson user :: post := by
  unfold runAutograde
  cases hv : env.autogradeSuccess lesson user
  · refine ⟨[Event.removeSubmission lesson user], ?_⟩
    simp only [Bool.false_eq_true, if_false]
    split <;> simp
  · exact ⟨[], by simp⟩

/-- A normally returned grading phase has the backend call event right
after the promoted state's trace. -/
theorem traceOf_gradingPhase (env : Env) (stP : GraderState) (sub : Submission)
    (gr2 : GradeResult) (lesson nb user sp : String) (tr : List Event)
    (htr : traceOf (gradingPhase env stP sub gr2 lesson nb user sp) = some tr) :
    ∃ post, tr = stP.trace ++ Event.autogradeCall lesson user :: post := by
  unfold traceOf at htr
  rcases hgp : gradingPhase env stP sub gr2 lesson nb user sp with e | p <;>
    rw [hgp] at htr
  · cases htr
  · obtain ⟨r, st'⟩ := p
    simp only [Except.toOption, Option.map] at htr
    injection htr with htr2
    rcases gradingPhase_ok_cases env stP sub gr2 lesson nb user sp r st' hgp with
      ⟨_, _, hst⟩ | ⟨_, _, _, _, _, htrace⟩
    · obtain ⟨post, hpost⟩ := runAutograde_trace env stP lesson user
      rw [hst] at htr2
      exact ⟨post, htr2.symm.trans hpost⟩
    · rw [htrace] at htr2
      exact ⟨[Event.gradesQuery lesson user, Event.feedbackCall lesson user,
        Event.ledgerWrite user lesson], htr2.symm⟩

/-- On a success autograde outcome the grading phase never changes the
file system. -/
theorem stateOf_gradingPhase_fs (env : Env) (stP : GraderState) (sub : Submission)
    (gr2 : GradeResult) (lesson nb user sp : String) (s : GraderState)
    (hA : env.autogradeSuccess lesson user = true)
    (hst : stateOf (gradingPhase env stP sub gr2 lesson nb user sp) = some s) :
    s.fs = stP.fs := by
  unfold stateOf at hst
  rcases hgp : gradingPhase env stP sub gr2 lesson nb user sp with e | p <;>
    rw [hgp] at hst
  · cases hst
  · obtain ⟨r, st'⟩ := p
    simp only [Except.toOption, Option.map] at hst
    injection hst with hst2
    rcases gradingPhase_ok_cases env stP sub gr2 lesson nb user sp r st' hgp with
      ⟨_, hb, _⟩ | ⟨_, _, _, hfs, _, _⟩
    · rw [runAutograde_fst, hA] at hb
      cases hb
    · rw [← hst2]
      exact hfs

/-- When the score join raises, the whole grading phase raises. -/
theorem gradingPhase_error_of_grades_error (env : Env) (stP : GraderState)
    (sub : Submission) (gr2 : GradeResult) (lesson nb user sp : String)
    (hA : env.autogradeSuccess lesson user = true)
    (hG : ∃ e0, getSubmissionGrades env stP.fs lesson nb user = Except.error e0) :
    ∃ e, gradingPhase env stP sub gr2 lesson nb user sp = Except.error e := by
  obtain ⟨e0, hG⟩ := hG
  refine ⟨e0, ?_⟩
  unfold gradingPhase
  rw [runAutograde_success env stP lesson user hA]
  simp [hG]

/-- When feedback generation fails after a successful autograde, the
whole grading phase raises. -/
theorem gradingPhase_error_of_feedback_failure (env : Env) (stP : GraderState)
    (sub : Submission) (gr2 : GradeResult) (lesson nb user sp : String)
    (hA : env.autogradeSuccess lesson user = true)
    (hFb : env.feedbackSuccess lesson user = false) :
    ∃ e, gradingPhase env stP sub gr2 lesson nb user sp = Except.error e := by
  unfold gradingPhase
  rw [runAutograde_success env stP lesson user hA]
  rcases hG : getSubmissionGrades env stP.fs lesson nb user with e0 | grades
  · exact ⟨e0, by simp [hG]⟩
  · refine ⟨"RuntimeError: generating nbgrader feedback failed", ?_⟩
    simp [hG, createNbgraderFeedback, hFb]

/-- The promoted directory exists after `_move_checked_files` whenever
the staged directory is not the promoted directory or above it. -/
theorem existsPath_moveCheckedFiles_dst (fs : FS) (src dst : String) (ts : Int)
    (hne : (dst == src) = false) (hnu : underDir src dst = false) :
    (moveCheckedFiles fs src dst ts).existsPath dst = true := by
  simp only [moveCheckedFiles, FS.writeFile, FS.rmtree, FS.copytree, FS.existsPath]
  apply Bool.or_eq_true_iff.mpr
  left
  rw [List.any_eq_true]
  refine ⟨dst, List.mem_filter.mpr ⟨List.mem_cons_self _ _, ?_⟩, ?_⟩
  · simp [hne, hnu]
  · simp

/-- C5 (amended): for an admitted submission, promotion of the files
into the durable submitted area happens before the grading backend's
autograde operation is invoked (the promote event immediately precedes
the autograde call event in the trace); on a grader failure the
promoted copy is rolled back (the promoted directory is absent
afterwards), and it remains on disk when grading succeeds. -/
theorem promotion_before_autograde_rollback_on_failure (env : Env)
    (st : GraderState) (sub : Submission) (u : UserRecord) (l : LessonRecord)
    (nb : String)
    (hU : get_user_info env.users sub.email = some u)
    (hL : get_lesson_info env.lessons sub.lesson_name = some l)
    (hN : getNotebookName env l.name = some nb)
    (hE : st.fs.existsPath (pathJoin sub.file_path (nb ++ ".ipynb")) = true)
    (hF : isSubmissionNewer st.fs (pathJoin (pathJoin "submitted" u.id) l.name)
      sub.timestamp = Except.ok true)
    (hV : isNotebookValid env st.fs sub.file_path l.name nb = Except.ok true)
    (hne : ((pathJoin (pathJoin "submitted" u.id) l.name) == sub.file_path) = false)
    (hnu : underDir sub.file_path (pathJoin (pathJoin "submitted" u.id) l.name)
      = false) :
    (∀ tr, traceOf (grade_submission env st sub) = some tr →
      ∃ post, tr = st.trace ++
        [Event.checkUser sub.email, Event.checkLesson sub.lesson_name,
         Event.checkFiles l.name,
         Event.checkFresh (pathJoin (pathJoin "submitted" u.id) l.name),
         Event.checkValid nb,
         Event.promote sub.file_path (pathJoin (pathJoin "submitted" u.id) l.name),
         Event.autogradeCall l.name u.id] ++ post) ∧
    (env.autogradeSuccess l.name u.id = false →
      (stateOf (grade_submission env st sub)).map
        (fun s => s.fs.existsPath (pathJoin (pathJoin "submitted" u.id) l.name)) =
        some false) ∧
    (env.autogradeSuccess l.name u.id = true →
      ∀ s, stateOf (grade_submission env st sub) = some s →
        s.fs.existsPath (pathJoin (pathJoin "submitted" u.id) l.name) = true) := by
  refine ⟨?_, ?_, ?_⟩
  · intro tr htr
    simp only [grade_submission, hU, hL, hN, hE, hF, hV, if_true] at htr
    obtain ⟨post, hpost⟩ :=
      traceOf_gradingPhase env _ sub _ l.name nb u.id _ tr htr
    refine ⟨post, ?_⟩
    rw [hpost]
    simp
  · intro hA
    simp only [grade_submission, hU, hL, hN, hE, hF, hV, if_true, gradingPhase]
    split
    case _ stA heq =>
      have hk := runAutograde_eq_failure env _ l.name u.id _ _ heq hA
      simp [stateOf, Except.toOption, hk.2.1]
    case _ stA heq =>
      have hk := runAutograde_eq_failure env _ l.name u.id _ _ heq hA
      exact absurd hk.1 (by simp)
  · intro hA s hs
    simp only [grade_submission, hU, hL, hN, hE, hF, hV, if_true] at hs
    have hfs := stateOf_gradingPhase_fs env _ sub _ l.name nb u.id _ s hA hs
    rw [hfs]
    exact existsPath_moveCheckedFiles_dst st.fs sub.file_path
      (pathJoin (pathJoin "submitted" u.id) l.name) sub.timestamp hne hnu

/-- C9: fatal conditions are raised as errors and never encoded as a
GradeResult status: a non-success feedback generation raises; a
declared task without a matching backend score raises in the score
join; and on an admitted, successfully autograded submission either
condition aborts grade_submission with an error instead of returning a
result. -/
theorem fatal_conditions_raise_errors :
    (∀ (env : Env) (lesson nb user : String),
      env.feedbackSuccess lesson user = false →
      ∃ e, createNbgraderFeedback env lesson nb user = Except.error e) ∧
    (∀ (env : Env) (fs : FS) (lesson nb user : String) (tasks : List Task) (t : Task),
      getLessonTasks fs lesson nb = Except.ok tasks →
      t ∈ tasks →
      t.test_cell.bind (env.gradesOf lesson user) = none →
      ∃ e, getSubmissionGrades env fs lesson nb user = Except.error e) ∧
    (∀ (env : Env) (st : GraderState) (sub : Submission) (u : UserRecord)
        (l : LessonRecord) (nb : String),
      get_user_info env.users sub.email = some u →
      get_lesson_info env.lessons sub.lesson_name = some l →
      getNotebookName env l.name = some nb →
      st.fs.existsPath (pathJoin sub.file_path (nb ++ ".ipynb")) = true →
      isSubmissionNewer st.fs (pathJoin (pathJoin "submitted" u.id) l.name)
        sub.timestamp = Except.ok true →
      isNotebookValid env st.fs sub.file_path l.name nb = Except.ok true →
      env.autogradeSuccess l.name u.id = true →
      (∃ e0, getSubmissionGrades env
        (moveCheckedFiles st.fs sub.file_path
          (pathJoin (pathJoin "submitted" u.id) l.name) sub.timestamp)
        l.name nb u.id = Except.error e0) →
      ∃ e, grade_submission env st sub = Except.error e) ∧
    (∀ (env : Env) (st : GraderState) (sub : Submission) (u : UserRecord)
        (l : LessonRecord) (nb : String),
      get_user_info env.users sub.email = some u →
      get_lesson_info env.lessons sub.lesson_name = some l →
      getNotebookName env l.name = some nb →
      st.fs.existsPath (pathJoin sub.file_path (nb ++ ".ipynb")) = true →
      isSubmissionNewer st.fs (pathJoin (pathJoin "submitted" u.id) l.name)
        sub.timestamp = Except.ok true →
      isNotebookValid env st.fs sub.file_path l.name nb = Except.ok true →
      env.autogradeSuccess l.name u.id = true →
      env.feedbackSuccess l.name u.id = false →
      ∃ e, grade_submission env st sub = Except.error e) := by
  refine ⟨?_, ?_, ?_, ?_⟩
  · intro env lesson nb user hFb
    exact ⟨"RuntimeError: generating nbgrader feedback failed",
      by simp [createNbgraderFeedback, hFb]⟩
  · intro env fs lesson nb user tasks t hTasks hmem hmiss
    obtain ⟨e, he⟩ := gradeTasks_error_of_missing (env.gradesOf lesson user)
      tasks t hmem hmiss
    exact ⟨e, by simp [getSubmissionGrades, hTasks, he]⟩
  · intro env st sub u l nb hU hL hN hE hF hV hA hG
    simp only [grade_submission, hU, hL, hN, hE, hF, hV, if_true]
    exact gradingPhase_error_of_grades_error env _ sub _ l.name nb u.id _ hA hG
  · intro env st sub u l nb hU hL hN hE hF hV hA hFb
    simp only [grade_submission, hU, hL, hN, hE, hF, hV, if_true]
    exact gradingPhase_error_of_feedback_failure env _ sub _ l.name nb u.id _ hA hFb

/-! ## Concrete scenario fixtures -/

/-- A markdown task-header cell with an nbgrader marker. -/
def mdCellW : Cell :=
  { cell_type := CellType.markdown
    nbgrader := some { grade_id := some "m1", grade := false }
    source := ["#### TODO: Task one\n"] }

/-- A graded code cell with an nbgrader marker. -/
def codeCellW : Cell :=
  { cell_type := CellType.code
    nbgrader := some { grade_id := some "c1", grade := true }
    source := ["check\n"] }

/-- A well-formed notebook with the two marker cells. -/
def nbJsonW : NotebookJson := NotebookJson.cellsArr [mdCellW, codeCellW]

/-- The registered user of the scenarios. -/
def uW : UserRecord :=
  { id := "u1", email := "A@x.com", first_name := "Ann", last_name := "Lee" }

/-- The regular one-notebook lesson. -/
def lW : LessonRecord := { name := "Loops" }

/-- A lesson registered with no notebooks. -/
def lEmptyW : LessonRecord := { name := "Empty" }

/-- A lesson registered with two notebooks. -/
def lMultiW : LessonRecord := { name := "Multi" }

/-- Scenario environment: one user, three lessons, an all-success
grading backend. -/
def envW : Env :=
  { users := [uW]
    lessons := [lW, lEmptyW, lMultiW]
    notebooksOf := fun les =>
      if les == "Loops" then ["Loops"]
      else if les == "Multi" then ["MultiNb", "OtherNb"] else []
    sourceCellsOf := fun nb les =>
      if (nb == "Loops" && les == "Loops") || (nb == "MultiNb" && les == "Multi")
      then ["m1", "c1"] else []
    autogradeSuccess := fun _ _ => true
    feedbackSuccess := fun _ _ => true
    gradesOf := fun _ _ c => if c == "c1" then some (1, 2) else none
    feedbackFile := fun _ _ _ => "feedback-html" }

/-- Same environment with a failing grading backend. -/
def envFailW : Env := { envW with autogradeSuccess := fun _ _ => false }

/-- Same environment with failing feedback generation. -/
def envNoFeedbackW : Env := { envW with feedbackSuccess := fun _ _ => false }

/-- Same environment with no backend scores at all. -/
def envNoScoreW : Env := { envW with gradesOf := fun _ _ _ => none }

/-- Initial state: a staged submission for Loops and the instructor's
source notebook on disk. -/
def stW : GraderState :=
  { fs := { dirs := ["down/s1", "source/Loops"]
            files := [("down/s1/Loops.ipynb", FileData.nbFile nbJsonW),
                      ("source/Loops/Loops.ipynb", FileData.nbFile nbJsonW)] }
    backendSubs := []
    ledger := []
    trace := [] }

/-- Like `stW` with a newer promoted submission already recorded. -/
def stStaleW : GraderState :=
  { stW with fs := { stW.fs with
      files := ("submitted/u1/Loops/timestamp.txt", FileData.tsFile 200) ::
        stW.fs.files } }

/-- Like `stW` but the staged notebook file fails to parse. -/
def stMalformedW : GraderState :=
  { stW with fs := { stW.fs with
      files := [("down/s1/Loops.ipynb", FileData.nbFile NotebookJson.malformed),
                ("source/Loops/Loops.ipynb", FileData.nbFile nbJsonW)] } }

/-- Like `stW` but without the staged notebook file. -/
def stNoFileW : GraderState :=
  { stW with fs := { stW.fs with
      files := [("source/Loops/Loops.ipynb", FileData.nbFile nbJsonW)] } }

/-- Like `stW` but the staged notebook has a duplicated graded cell. -/
def stDupW : GraderState :=
  { stW with fs := { stW.fs with
      files := [("down/s1/Loops.ipynb",
                  FileData.nbFile (NotebookJson.cellsArr [mdCellW, codeCellW, codeCellW])),
                ("source/Loops/Loops.ipynb", FileData.nbFile nbJsonW)] } }

/-- Like `stW` but the staged notebook is missing one graded cell. -/
def stRemW : GraderState :=
  { stW with fs := { stW.fs with
      files := [("down/s1/Loops.ipynb",
                  FileData.nbFile (NotebookJson.cellsArr [mdCellW])),
                ("source/Loops/Loops.ipynb", FileData.nbFile nbJsonW)] } }

/-- A staged submission for the two-notebook lesson. -/
def stMultiW : GraderState :=
  { fs := { dirs := ["down/s2", "source/Multi"]
            files := [("down/s2/MultiNb.ipynb", FileData.nbFile nbJsonW),
                      ("source/Multi/MultiNb.ipynb", FileData.nbFile nbJsonW)] }
    backendSubs := []
    ledger := []
    trace := [] }

/-- The regular submission. -/
def subW : Submission :=
  { timestamp := 100, email := "a@x.com", lesson_name := "Loops"
    file_path := "down/s1", submission_id := "s1" }

/-- A submission from an unknown email address. -/
def subBadEmailW : Submission := { subW with email := "zz@x.com" }

/-- A submission for an unknown lesson. -/
def subBadLessonW : Submission := { subW with lesson_name := "Nope" }

/-- A submission for the lesson with no notebooks. -/
def subEmptyW : Submission := { subW with lesson_name := "Empty" }

/-- A submission for the two-notebook lesson. -/
def subMultiW : Submission :=
  { timestamp := 100, email := "a@x.com", lesson_name := "Multi"
    file_path := "down/s2", submission_id := "s2" }

/-- C5, counterexample to the claim as stated: a concrete admitted
submission whose grading fails ends with status ERROR_GRADER_FAILED and
with the promoted submitted-files directory absent — the promoted copy
does not remain on disk on grader failure. -/
theorem promoted_copy_not_retained_on_failure :
    statusOf (grade_submission envFailW stW subW) =
      some GradeStatus.ERROR_GRADER_FAILED ∧
    (stateOf (grade_submission envFailW stW subW)).map
      (fun s => s.fs.existsPath (pathJoin (pathJoin "submitted" "u1") "Loops")) =
      some false := by
  decide

/-! ## Witnesses -/

/-- Witness for C1: each admission check fails on a concrete scenario
with the claimed status. -/
theorem admission_checks_order_and_statuses_witness :
    statusOf (grade_submission envW stW subBadEmailW) =
      some GradeStatus.ERROR_USERNAME_IS_ABSENT ∧
    statusOf (grade_submission envW stW subBadLessonW) =
      some GradeStatus.ERROR_LESSON_IS_ABSENT ∧
    statusOf (grade_submission envW stW subEmptyW) =
      some GradeStatus.ERROR_NO_CORRECT_FILES ∧
    statusOf (grade_submission envW stNoFileW subW) =
      some GradeStatus.ERROR_NO_CORRECT_FILES ∧
    statusOf (grade_submission envW stStaleW subW) = some GradeStatus.SKIPPED ∧
    statusOf (grade_submission envW stMalformedW subW) =
      some GradeStatus.ERROR_NOTEBOOK_CORRUPTED :=
  ⟨((admission_checks_order_and_statuses envW stW subBadEmailW).1 (by decide)).1,
   ((admission_checks_order_and_statuses envW stW subBadLessonW).2.1 uW
     (by decide) (by decide)).1,
   ((admission_checks_order_and_statuses envW stW subEmptyW).2.2.1 uW lEmptyW
     (by decide) (by decide) (by decide)).1,
   ((admission_checks_order_and_statuses envW stNoFileW subW).2.2.2.1 uW lW "Loops"
     (by decide) (by decide) (by decide) (by decide)).1,
   ((admission_checks_order_and_statuses envW stStaleW subW).2.2.2.2.1 uW lW "Loops"
     (by decide) (by decide) (by decide) (by decide) (by decide)).1,
   ((admission_checks_order_and_statuses envW stMalformedW subW).2.2.2.2.2 uW lW
     "Loops" (by decide) (by decide) (by decide) (by decide) (by decide)
     (by decide)).1⟩

/-- Witness for C2: a stale concrete submission is SKIPPED, and a first
submission passes the freshness predicate. -/
theorem freshness_predicate_semantics_witness :
    statusOf (grade_submission envW stStaleW subW) = some GradeStatus.SKIPPED ∧
    isSubmissionNewer stW.fs (pathJoin (pathJoin "submitted" "u1") "Loops") 100 =
      Except.ok true :=
  ⟨freshness_predicate_semantics.2 envW stStaleW subW uW lW "Loops" 200
     (by decide) (by decide) (by decide) (by decide) (by decide) (by decide),
   (freshness_predicate_semantics.1 stW.fs
     (pathJoin (pathJoin "submitted" "u1") "Loops") 100).mpr (Or.inl (by decide))⟩

/-- Witness for C3: the matching notebook validates; removing or
duplicating one graded cell invalidates. -/
theorem notebook_validator_multiset_semantics_witness :
    isNotebookValid envW stW.fs "down/s1" "Loops" "Loops" = Except.ok true ∧
    isNotebookValid envW stRemW.fs "down/s1" "Loops" "Loops" = Except.ok false ∧
    isNotebookValid envW stDupW.fs "down/s1" "Loops" "Loops" = Except.ok false :=
  ⟨(notebook_validator_multiset_semantics envW stW.fs "down/s1" "Loops" "Loops"
      [mdCellW, codeCellW] (by decide)).2.1 (by decide),
   (notebook_validator_multiset_semantics envW stRemW.fs "down/s1" "Loops" "Loops"
      [mdCellW] (by decide)).2.2.1 (some "c1") (by decide) (by decide),
   (notebook_validator_multiset_semantics envW stDupW.fs "down/s1" "Loops" "Loops"
      [mdCellW, codeCellW, codeCellW] (by decide)).2.2.2 (some "c1") (by decide)⟩

/-- Witness for C4: a concrete backend failure yields
ERROR_GRADER_FAILED, removes the gradebook record and the promoted
directory, and writes no ledger record. -/
theorem grader_failure_rollback_witness :
    statusOf (grade_submission envFailW stW subW) =
      some GradeStatus.ERROR_GRADER_FAILED ∧
    (stateOf (grade_submission envFailW stW subW)).map
      (fun s => s.fs.existsPath (pathJoin (pathJoin "submitted" uW.id) lW.name)) =
      some false ∧
    (stateOf (grade_submission envFailW stW subW)).map
      (fun s => decide ((lW.name, uW.id) ∈ s.backendSubs)) = some false ∧
    ledgerOf (grade_submission envFailW stW subW) = some stW.ledger := by
  have h := grader_failure_rollback envFailW stW subW uW lW "Loops"
    (by decide) (by decide) (by decide) (by decide) (by decide) (by decide) (by decide)
  exact ⟨h.1, h.2.1, h.2.2.1, h.2.2.2⟩

/-- Witness for C5 (amended): on the concrete scenarios the promoted
directory is absent after a failed grading and present after a
successful one. -/
theorem promotion_before_autograde_rollback_on_failure_witness :
    (stateOf (grade_submission envFailW stW subW)).map
      (fun s => s.fs.existsPath (pathJoin (pathJoin "submitted" uW.id) lW.name)) =
      some false ∧
    (stateOf (grade_submission envW stW subW)).map
      (fun s => s.fs.existsPath (pathJoin (pathJoin "submitted" uW.id) lW.name)) =
      some true := by
  have hf := promotion_before_autograde_rollback_on_failure envFailW stW subW uW lW
    "Loops" (by decide) (by decide) (by decide) (by decide) (by decide) (by decide)
    (by decide) (by decide)
  have hs := promotion_before_autograde_rollback_on_failure envW stW subW uW lW
    "Loops" (by decide) (by decide) (by decide) (by decide) (by decide) (by decide)
    (by decide) (by decide)
  refine ⟨hf.2.1 (by decide), ?_⟩
  have h3 := hs.2.2 (by decide)
  rcases hx : stateOf (grade_submission envW stW subW) with _ | s0
  · have hsome : (stateOf (grade_submission envW stW subW)).isSome = true := by decide
    rw [hx] at hsome
    cases hsome
  · simp only [Option.map]
    rw [h3 s0 hx]

/-- Witness for C6: a concrete rejected submission leaves no staged
directory behind. -/
theorem rejection_removes_staged_directory_witness :
    (stateOf (grade_submission envW stW subBadEmailW)).map
      (fun s => s.fs.existsPath subBadEmailW.file_path) = some false := by
  rcases hx : grade_submission envW stW subBadEmailW with e | p
  · have hsome : (grade_submission envW stW subBadEmailW).toOption.isSome = true := by
      decide
    rw [hx] at hsome
    simp [Except.toOption] at hsome
  · obtain ⟨r, st'⟩ := p
    have hst : r.status = GradeStatus.ERROR_USERNAME_IS_ABSENT := by
      have h1 : statusOf (grade_submission envW stW subBadEmailW) =
          some GradeStatus.ERROR_USERNAME_IS_ABSENT := by decide
      rw [hx] at h1
      simp [statusOf, Except.toOption] at h1
      exact h1
    have h2 := rejection_removes_staged_directory envW stW subBadEmailW r st' hx
      (Or.inl hst)
    simp only [stateOf, Except.toOption, Option.map]
    rw [h2]

/-- Witness for C7: a concrete unparseable notebook degrades to a False
validation and the ERROR_NOTEBOOK_CORRUPTED status. -/
theorem corrupted_notebook_short_circuits_witness :
    isNotebookValid envW stMalformedW.fs subW.file_path lW.name "Loops" =
      Except.ok false ∧
    statusOf (grade_submission envW stMalformedW subW) =
      some GradeStatus.ERROR_NOTEBOOK_CORRUPTED := by
  have h := corrupted_notebook_short_circuits envW stMalformedW subW uW lW "Loops"
    (by decide) (by decide) (by decide) (by decide) (by decide)
  exact ⟨h.1, h.2.1⟩

/-- Witness for C8: the concrete successful run returns its task
grades. -/
theorem task_grades_iff_success_witness :
    (resultOf (grade_submission envW stW subW)).map
      (fun r => r.task_grades.isSome) = some true := by
  rcases hx : grade_submission envW stW subW with e | p
  · have hsome : (grade_submission envW stW subW).toOption.isSome = true := by decide
    rw [hx] at hsome
    simp [Except.toOption] at hsome
  · obtain ⟨r, st'⟩ := p
    have hiff := task_grades_iff_success envW stW subW r st' hx
    have hst : r.status = GradeStatus.SUCCESS := by
      have h1 : statusOf (grade_submission envW stW subW) =
          some GradeStatus.SUCCESS := by decide
      rw [hx] at h1
      simp [statusOf, Except.toOption] at h1
      exact h1
    obtain ⟨g, hg⟩ := hiff.mpr hst
    simp [resultOf, Except.toOption, hg]

/-- Witness for C9: on concrete runs, failing feedback generation and a
missing backend score abort with an error instead of a result. -/
theorem fatal_conditions_raise_errors_witness :
    (createNbgraderFeedback envNoFeedbackW "Loops" "Loops" "u1").toOption = none ∧
    (getSubmissionGrades envNoScoreW stW.fs "Loops" "Loops" "u1").toOption = none ∧
    (grade_submission envNoScoreW stW subW).toOption = none ∧
    (grade_submission envNoFeedbackW stW subW).toOption = none := by
  obtain ⟨e1, he1⟩ := fatal_conditions_raise_errors.1 envNoFeedbackW "Loops" "Loops"
    "u1" (by decide)
  obtain ⟨e2, he2⟩ := fatal_conditions_raise_errors.2.1 envNoScoreW stW.fs "Loops"
    "Loops" "u1"
    [{ name := "Task one", max_score := 0, score := 0, test_cell := some "c1" }]
    { name := "Task one", max_score := 0, score := 0, test_cell := some "c1" }
    (by decide) (by decide) (by decide)
  obtain ⟨e3, he3⟩ := fatal_conditions_raise_errors.2.2.1 envNoScoreW stW subW uW lW
    "Loops" (by decide) (by decide) (by decide) (by decide) (by decide) (by decide)
    (by decide) ⟨"KeyError: no backend score for the task", by decide⟩
  obtain ⟨e4, he4⟩ := fatal_conditions_raise_errors.2.2.2 envNoFeedbackW stW subW uW
    lW "Loops" (by decide) (by decide) (by decide) (by decide) (by decide)
    (by decide) (by decide) (by decide)
  refine ⟨?_, ?_, ?_, ?_⟩
  · rw [he1]
    rfl
  · rw [he2]
    rfl
  · rw [he3]
    rfl
  · rw [he4]
    rfl

/-- Witness for C10: the first notebook is selected; zero notebooks and
a missing selected file reject, while the concrete two-notebook lesson
proceeds. -/
theorem first_notebook_selected_witness :
    getNotebookName envW "Multi" = some "MultiNb" ∧
    statusOf (grade_submission envW stW subEmptyW) =
      some GradeStatus.ERROR_NO_CORRECT_FILES ∧
    statusOf (grade_submission envW stNoFileW subW) =
      some GradeStatus.ERROR_NO_CORRECT_FILES ∧
    statusOf (grade_submission envW stMultiW subMultiW) ≠
      some GradeStatus.ERROR_NO_CORRECT_FILES := by
  refine ⟨((first_notebook_selected envW stW subEmptyW uW lEmptyW).1 "Multi").trans
      (by decide),
    (first_notebook_selected envW stW subEmptyW uW lEmptyW).2.1
      (by decide) (by decide) (by decide),
    (first_notebook_selected envW stNoFileW subW uW lW).2.2.1 "Loops" []
      (by decide) (by decide) (by decide) (by decide), ?_⟩
  intro hc
  rcases hx : grade_submission envW stMultiW subMultiW with e | p
  · rw [hx] at hc
    simp [statusOf, Except.toOption] at hc
  · obtain ⟨r, st'⟩ := p
    have hne := (first_notebook_selected envW stMultiW subMultiW uW lMultiW).2.2.2
      "MultiNb" "OtherNb" [] (by decide) (by decide) (by decide) (by decide) r st' hx
    rw [hx] at hc
    simp [statusOf, Except.toOption] at hc
    exact hne hc

end JpGrader
